import Mathlib

/-!
Verification development for the pdf-to-jpg browser application
(source: src/App.tsx and src/types.ts).

The application state, the compression pipeline (handleCompress), the
AI edit step (handleApplyEdit), the quality mapping (getQuality), the
size formatter (formatFileSize) and the data URL decoder (dataURLToBlob)
are shallowly embedded below.  External collaborators that the code calls
(pdf.js page rendering, canvas encoding, jsPDF output, the remote AI
service, URL.createObjectURL, FileReader) are modelled as explicit inputs
of the pipeline: each run is a pure function of the application state and
of the outcomes those collaborators deliver.

JavaScript specifics that matter are modelled explicitly:
  - String.prototype.replace with a string pattern replaces only the
    FIRST occurrence (replaceFirst below);
  - Math.round(x) for nonnegative x is floor(x + 1/2); on the exact
    rational a/b this is (2*a + b) / (2*b) in integer arithmetic
    (jsRound below);
  - atob follows the forgiving-base64 decode of the HTML standard; only
    the byte LENGTH of the decoded payload is observable in the program
    (Blob.size), so atobLen returns that length (atobLen below);
  - Math.floor(Math.log bytes / Math.log 1024) is the floor of the real
    base-1024 logarithm, i.e. Nat.log 1024 (unitIndex below); the
    floating-point numeral rendering parseFloat((x).toFixed(2)) is not
    representable exactly and is abstracted as a parameter numStr of
    formatFileSize;
  - sizes[i] for an index past the end of the array is undefined, and
    string concatenation turns undefined into the text "undefined".

The crucial control-flow fact for error handling: in handleCompress the
try/catch block finishes as soon as the FileReader handlers are installed,
so an exception raised later inside the async onload callback (a rejected
pdfjs getDocument promise, a failed page render, a failed summarization
call, a dataURLToBlob throw) is an unhandled promise rejection: no state
update after the failure point runs, the status stays at processing and
no error message is published.  The embedding returns the state frozen at
the failure point on those paths.
-/

namespace PdfApp

/-- Output format union type from src/types.ts. -/
inductive OutputFormat
  | jpeg
  | png
  | pdf
deriving DecidableEq, Repr

/-- Compression level union type from src/types.ts. -/
inductive CompressionLevel
  | low
  | medium
  | high
deriving DecidableEq, Repr

/-- CompressionOptions interface from src/types.ts. -/
structure CompressionOptions where
  format : OutputFormat
  level : CompressionLevel
deriving DecidableEq, Repr

/-- ProcessedFile interface from src/types.ts.  previewUrl is optional in
the interface but every artifact the code constructs sets it, so it is
modelled as a plain field. -/
structure ProcessedFile where
  name : String
  dataUrl : String
  previewUrl : String
  originalSize : Nat
  compressedSize : Nat
deriving DecidableEq, Repr

/-- AppStatus union type from src/types.ts. -/
inductive AppStatus
  | idle
  | processing
  | success
  | error
deriving DecidableEq, Repr

/-- The editingState value of App: index of the artifact being edited,
the instruction text, and the in-flight flag. -/
structure EditingState where
  index : Nat
  prompt : String
  isLoading : Bool
deriving DecidableEq, Repr

/-- The user-selected file, as the pipeline observes it: name and byte
size (the binary content is only seen by external collaborators). -/
structure SourceFile where
  name : String
  size : Nat
deriving DecidableEq, Repr

/-- The React state of the App component. -/
structure AppState where
  file : Option SourceFile
  options : CompressionOptions
  status : AppStatus
  statusMessage : String
  results : List ProcessedFile
  error : Option String
  editingState : Option EditingState
deriving DecidableEq, Repr

/-- A browser Blob, as observed by the program: MIME type and byte size
(the code reads only blob.size and treats the bytes as a black box). -/
structure Blob where
  type : String
  size : Nat
deriving DecidableEq, Repr

/-- JS String.prototype.split with a one-character separator: every part,
in order; an empty input gives one empty part. -/
def splitOnChar (sep : Char) : List Char → List (List Char)
  | [] => [[]]
  | c :: rest =>
    let r := splitOnChar sep rest
    if c = sep then [] :: r
    else
      match r with
      | h :: t => (c :: h) :: t
      | [] => [[c]]

/-- JS String.prototype.replace with a STRING pattern: replaces only the
first occurrence of pat (the whole input is returned unchanged when pat
does not occur). -/
def replaceFirstList (pat repl : List Char) : List Char → List Char
  | [] => if pat = [] then repl else []
  | c :: rest =>
    if pat.isPrefixOf (c :: rest) then repl ++ (c :: rest).drop pat.length
    else c :: replaceFirstList pat repl rest

/-- String wrapper for replaceFirstList. -/
def replaceFirst (s pat repl : String) : String :=
  String.mk (replaceFirstList pat.data repl.data s.data)

/-- Characters the regex /:(.*?);/ group may stop at: collect characters
until the first semicolon; none when no semicolon follows. -/
def takeUntilSemi : List Char → Option (List Char)
  | [] => none
  | c :: rest =>
    if c = ';' then some []
    else (takeUntilSemi rest).map (fun l => c :: l)

/-- The lazy regex /:(.*?);/ applied to a string: the characters between
the first colon and the first semicolon after it; none when there is no
such match.  (A later colon cannot start a match when the first one has
no semicolon after it, since any semicolon after a later colon would also
lie after the first colon.) -/
def firstColonGroup : List Char → Option (List Char)
  | [] => none
  | c :: rest =>
    if c = ':' then takeUntilSemi rest
    else firstColonGroup rest

/-- ASCII whitespace, which the forgiving-base64 decode strips. -/
def isAsciiWhitespace (c : Char) : Bool :=
  c = ' ' ∨ c = '\t' ∨ c = '\n' ∨ c = '\r' ∨ c = Char.ofNat 12

/-- Characters of the base64 alphabet (other than the padding sign). -/
def isB64Char (c : Char) : Bool :=
  c.isAlphanum ∨ c = '+' ∨ c = '/'

/-- Remove one or two trailing padding signs. -/
def stripPad (cs : List Char) : List Char :=
  match cs.reverse with
  | '=' :: '=' :: t => t.reverse
  | '=' :: t => t.reverse
  | _ => cs

/-- Byte length of the result of JS atob (the forgiving-base64 decode):
strip ASCII whitespace; when the length is a multiple of four, strip one
or two trailing padding signs; a remaining length of 1 mod 4 or any
character outside the base64 alphabet is an error (none). -/
def atobLen (s : String) : Option Nat :=
  let cs := s.data.filter (fun c => ¬ isAsciiWhitespace c)
  let cs2 := if cs.length % 4 = 0 then stripPad cs else cs
  if cs2.length % 4 = 1 then none
  else if cs2.all isB64Char then
    some (3 * (cs2.length / 4) +
      (if cs2.length % 4 = 2 then 1 else if cs2.length % 4 = 3 then 2 else 0))
  else none

/-- dataURLToBlob from src/App.tsx: split at commas, require at least two
parts, read the MIME type with /:(.*?);/ from the first part, decode the
second part with atob, and build a blob of the decoded bytes.  Throws are
modelled as Except.error carrying the message of the thrown error. -/
def dataURLToBlob (dataUrl : String) : Except String Blob :=
  let arr := splitOnChar ',' dataUrl.data
  if arr.length < 2 then Except.error "Invalid data URL"
  else
    match firstColonGroup (arr.getD 0 []) with
    | none => Except.error "Could not parse MIME type from data URL"
    | some mime =>
      match atobLen (String.mk (arr.getD 1 [])) with
      | none => Except.error "The string to be decoded is not correctly encoded."
      | some n => Except.ok { type := String.mk mime, size := n }

/-- The unit array of formatFileSize. -/
def sizesList : List String := ["Bytes", "KB", "MB", "GB"]

/-- The unit index i = Math.floor(Math.log(bytes) / Math.log(1024)) of
formatFileSize, for bytes at least 1: the floor of the real base-1024
logarithm, which is Nat.log 1024. -/
def unitIndex (bytes : Nat) : Nat := Nat.log 1024 bytes

/-- formatFileSize from src/App.tsx.  The numeral part
parseFloat((bytes / Math.pow(1024, i)).toFixed(2)) is floating-point
text rendering and is abstracted as the parameter numStr (a function of
the byte count and the unit index); the zero case, the unit lookup and
the out-of-bounds behaviour (sizes[i] is undefined, rendered as the text
"undefined") are modelled exactly. -/
def formatFileSize (numStr : Nat → Nat → String) (bytes : Nat) : String :=
  if bytes = 0 then "0 Bytes"
  else numStr bytes (unitIndex bytes) ++ " " ++ sizesList.getD (unitIndex bytes) "undefined"

/-- getQuality from src/App.tsx: the switch on options.level.  The
default arm (0.75) is unreachable because CompressionLevel has exactly
the three listed values. -/
def getQuality (options : CompressionOptions) : ℚ :=
  match options.level with
  | CompressionLevel.low => 1/2
  | CompressionLevel.medium => 3/4
  | CompressionLevel.high => 92/100

/-- JS Math.round(a / b) for natural a, b computed on the exact rational:
floor(a/b + 1/2) = (2*a + b) / (2*b) in integer arithmetic (half-way
values round up, as Math.round does). -/
def jsRound (a b : Nat) : Nat := (2 * a + b) / (2 * b)

/-- The string value of the format union member, as used in template
literals and as the subtype of the image MIME type. -/
def fmtExt : OutputFormat → String
  | OutputFormat.jpeg => "jpeg"
  | OutputFormat.png => "png"
  | OutputFormat.pdf => "pdf"

/-- One page of the decoded PDF, as the pipeline observes it: the str
fields of the items of page.getTextContent(). -/
structure PdfPage where
  textItems : List String
deriving DecidableEq, Repr

/-- The decoded PDF document: its pages in order (numPages is the list
length). -/
structure PdfDoc where
  pages : List PdfPage
deriving DecidableEq, Repr

/-- Outcome of the FileReader step: onerror fired, onload fired with a
null result, or onload fired with the bytes. -/
inductive ReadOutcome
  | readError
  | nullResult
  | loaded
deriving DecidableEq, Repr

/-- Outcomes delivered by the external collaborators during one
compression run.  Page indices are 1-based, matching the loop variable
of the source. -/
structure CompressEnv where
  /-- FileReader outcome. -/
  read : ReadOutcome
  /-- pdfjsLib.getDocument: none when the promise rejects (malformed
  PDF), otherwise the decoded document. -/
  decode : Option PdfDoc
  /-- page.render(...).promise for page i resolves. -/
  renderOk : Nat → Bool
  /-- canvas.getContext of the canvas created for page i returns a
  non-null context. -/
  ctx : Nat → Bool
  /-- canvas.toDataURL for page i at the given MIME type and quality. -/
  encode : Nat → String → ℚ → String
  /-- summarizePdfText: the remote AI summarization call. -/
  summarize : String → Except String String
  /-- Byte size of doc.output of the jsPDF document typeset from the
  summarized text (splitTextToSize plus text plus output composed). -/
  outputBlobSize : String → Nat
  /-- URL.createObjectURL of the generated blob. -/
  objectUrl : String
  /-- generatePdfPreview of the generated blob: the preview data URL, or
  a rendering failure. -/
  preview : Except String String

/-- page text of one page: textContent.items.map(item => item.str)
joined with single spaces. -/
def pageText (p : PdfPage) : String :=
  String.intercalate " " p.textItems

/-- The fullText accumulation of the summary branch (lines 135-141 of
src/App.tsx): starting from the empty string, every page appends its
text followed by a blank-line separator — also after the last page. -/
def extractFullText (doc : PdfDoc) : String :=
  doc.pages.foldl (fun acc p => acc ++ pageText p ++ "\n\n") ""

/-- The index list of the source loop for (i = 1; i &le; N; i++): the n
consecutive naturals starting at s. -/
def natRange (s : Nat) : Nat → List Nat
  | 0 => []
  | n + 1 => s :: natRange (s + 1) n

/-- The page conversion loop of the image branch (lines 171-194 of
src/App.tsx).  Returns the last progress message together with the
artifact list, or none when an exception escaped (a rejected render
promise or a dataURLToBlob throw — uncaught inside the async onload
callback, so the run freezes).  A page whose canvas yields no 2d context
is skipped silently, exactly as the if (context) guard does. -/
def convertLoop (base ext mime : String) (q : ℚ) (perPage numPages : Nat)
    (renderOk ctx : Nat → Bool) (encode : Nat → String → ℚ → String) :
    List Nat → String → String × Option (List ProcessedFile)
  | [], msg => (msg, some [])
  | i :: rest, _ =>
    let msg := "Converting page " ++ toString i ++ " of " ++ toString numPages ++ "..."
    if ctx i then
      if renderOk i then
        let du := encode i mime q
        match dataURLToBlob du with
        | Except.error _ => (msg, none)
        | Except.ok blob =>
          match convertLoop base ext mime q perPage numPages renderOk ctx encode rest msg with
          | (m, none) => (m, none)
          | (m, some arts) =>
            (m, some ({ name := base ++ "_page_" ++ toString i ++ "." ++ ext,
                        dataUrl := du,
                        previewUrl := du,
                        originalSize := perPage,
                        compressedSize := blob.size } :: arts))
      else (msg, none)
    else convertLoop base ext mime q perPage numPages renderOk ctx encode rest msg

/-- handleCompress from src/App.tsx, as a function of the current state
and of the collaborator outcomes.  The guard, the state reset, the two
FileReader failure paths and both branches are translated one to one.
The try/catch of the source closes when the FileReader handlers have
been installed, so a failure inside the async onload callback (decode,
render, encode, summarize, preview) leaves the state exactly as it was
at the failure point: status processing, no error message, results
empty. -/
def handleCompress (st : AppState) (env : CompressEnv) : AppState :=
  match st.file with
  | none => st
  | some f =>
    let st1 : AppState :=
      { st with status := AppStatus.processing, results := [], error := none,
                editingState := none }
    match env.read with
    | ReadOutcome.readError =>
      { st1 with error := some "Error reading file.", status := AppStatus.error }
    | ReadOutcome.nullResult =>
      { st1 with error := some "Failed to read file.", status := AppStatus.error }
    | ReadOutcome.loaded =>
      match env.decode with
      | none => st1
      | some pdf =>
        if st.options.format = OutputFormat.pdf then
          let st2 := { st1 with statusMessage := "Extracting text from PDF..." }
          let fullText := extractFullText pdf
          let st3 := { st2 with statusMessage := "AI is summarizing the content..." }
          match env.summarize fullText with
          | Except.error _ => st3
          | Except.ok summarizedText =>
            let st4 := { st3 with statusMessage := "Generating new PDF..." }
            let blobSize := env.outputBlobSize summarizedText
            let st5 := { st4 with statusMessage := "Generating preview..." }
            match env.preview with
            | Except.error _ => st5
            | Except.ok previewUrl =>
              { st5 with
                results := [{ name := replaceFirst f.name ".pdf" "" ++ "_summary.pdf",
                              dataUrl := env.objectUrl,
                              previewUrl := previewUrl,
                              originalSize := f.size,
                              compressedSize := blobSize }],
                status := AppStatus.success }
        else
          match convertLoop (replaceFirst f.name ".pdf" "") (fmtExt st.options.format)
              ("image/" ++ fmtExt st.options.format) (getQuality st.options)
              (jsRound f.size pdf.pages.length) pdf.pages.length
              env.renderOk env.ctx env.encode
              (natRange 1 pdf.pages.length) st1.statusMessage with
          | (m, none) => { st1 with statusMessage := m }
          | (m, some arts) =>
            { st1 with statusMessage := m, results := arts,
                       status := AppStatus.success }

/-- A character of the class [\w\d_-] of the edited-name regex: ASCII
letters, digits, underscore, hyphen. -/
def isWordChar (c : Char) : Bool :=
  c.isAlphanum ∨ c = '_' ∨ c = '-'

/-- name.replace with the regex /(\.[\w\d_-]+)$/i and the replacement
pattern that puts _edited before the group: when the name ends in a dot
followed by one or more word-class characters, _edited is inserted
before that final dot; otherwise the name is unchanged.  (The class
excludes the dot, so the only possible match starts at the last dot.) -/
def jsEditedName (name : String) : String :=
  let rev := name.data.reverse
  let extRev := rev.takeWhile isWordChar
  let restRev := rev.drop extRev.length
  if extRev ≠ [] ∧ restRev.head? = some '.' then
    String.mk ((restRev.drop 1).reverse ++ "_edited".data ++ '.' :: extRev.reverse)
  else name

/-- err.message with the JS truthiness fallback of the catch blocks: the
default string stands in when the message is empty. -/
def jsErrMessage (m dflt : String) : String :=
  if m = "" then dflt else m

/-- The catch block of handleApplyEdit applied to the state st1 that the
handler built before the try block: the error message is published and
the captured editing session is re-stored with the in-flight flag
cleared (the session stays open). -/
def applyEditFail (st1 : AppState) (es : EditingState) (msg : String) : AppState :=
  { st1 with
    error := some (jsErrMessage msg "An error occurred during AI editing."),
    editingState := some { es with isLoading := false } }

/-- handleApplyEdit from src/App.tsx, as a function of the current state
and of the remote image-edit collaborator (editImageWithText).  The
guard, the loading flag, the local validation, the data URL parsing, the
remote call, the artifact replacement and the catch block are translated
one to one.  An out-of-range index makes originalFile undefined and the
dataUrl read throws a TypeError, caught like every other failure. -/
def handleApplyEdit (st : AppState)
    (editImage : String → String → String → Except String String) : AppState :=
  match st.editingState with
  | none => st
  | some es =>
    let st1 : AppState :=
      { st with editingState := some { es with isLoading := true }, error := none }
    if es.prompt = "" then
      applyEditFail st1 es "Please enter an edit description."
    else
      match st.results.get? es.index with
      | none =>
        applyEditFail st1 es "Cannot read properties of undefined (reading dataUrl)"
      | some originalFile =>
        let parts := splitOnChar ',' originalFile.dataUrl.data
        if parts.length ≠ 2 then applyEditFail st1 es "Invalid Data URL"
        else
          match firstColonGroup (parts.getD 0 []) with
          | none => applyEditFail st1 es "Could not determine MIME type"
          | some mimeChars =>
            let mimeType := String.mk mimeChars
            let base64Data := String.mk (parts.getD 1 [])
            match editImage base64Data mimeType es.prompt with
            | Except.error e => applyEditFail st1 es e
            | Except.ok newBase64Data =>
              let newDataUrl := "data:" ++ mimeType ++ ";base64," ++ newBase64Data
              match dataURLToBlob newDataUrl with
              | Except.error e => applyEditFail st1 es e
              | Except.ok newBlob =>
                let updatedFile : ProcessedFile :=
                  { originalFile with
                    name := jsEditedName originalFile.name,
                    dataUrl := newDataUrl,
                    previewUrl := newDataUrl,
                    compressedSize := newBlob.size }
                { st1 with results := st.results.set es.index updatedFile,
                           editingState := none }

/-! Concrete run fixtures used by counterexamples, code-bug evaluations
and witnesses.  Each is a plain application state or collaborator
outcome record. -/

/-- A benign collaborator environment for image runs: every page renders,
every canvas has a context, and the encoder always yields the same small
well-formed JPEG data URL (whose base64 payload AAAA decodes to three
bytes). -/
def envImgOk (doc : PdfDoc) : CompressEnv :=
  { read := ReadOutcome.loaded,
    decode := some doc,
    renderOk := fun _ => true,
    ctx := fun _ => true,
    encode := fun _ _ _ => "data:image/jpeg;base64,AAAA",
    summarize := fun _ => Except.ok "",
    outputBlobSize := fun _ => 0,
    objectUrl := "",
    preview := Except.ok "" }

/-- An idle state holding the given file with the given image options. -/
def idleState (f : SourceFile) (opts : CompressionOptions) : AppState :=
  { file := some f, options := opts, status := AppStatus.idle,
    statusMessage := "", results := [], error := none, editingState := none }

/-- State fixture for the C2 evaluation: an ordinary jpeg/medium run. -/
def stMal : AppState :=
  idleState { name := "doc.pdf", size := 100 }
    { format := OutputFormat.jpeg, level := CompressionLevel.medium }

/-- Environment fixture for the C2 evaluation: the file reads fine but
pdfjs getDocument rejects (malformed PDF). -/
def envMal : CompressEnv :=
  { read := ReadOutcome.loaded,
    decode := none,
    renderOk := fun _ => true,
    ctx := fun _ => true,
    encode := fun _ _ _ => "data:image/jpeg;base64,AAAA",
    summarize := fun _ => Except.ok "",
    outputBlobSize := fun _ => 0,
    objectUrl := "",
    preview := Except.ok "" }

/-- A one-page document whose single page carries the text item hi. -/
def docOnePage : PdfDoc := { pages := [{ textItems := ["hi"] }] }

/-- A two-page document. -/
def docTwoPages : PdfDoc :=
  { pages := [{ textItems := ["hi"] }, { textItems := ["there"] }] }

/-- State fixture for the C1 counterexample: a legal PDF file name in
which the substring .pdf occurs before the final extension as well. -/
def stC1x : AppState :=
  idleState { name := "x.pdfy.pdf", size := 1000 }
    { format := OutputFormat.jpeg, level := CompressionLevel.high }

/-- State fixture for the C1 amended-claim witness. -/
def stW1 : AppState :=
  idleState { name := "wdoc.pdf", size := 50 }
    { format := OutputFormat.jpeg, level := CompressionLevel.medium }

/-- State fixture for the C8 counterexample: 3 source bytes over 2
pages, so the floor and the round of the per-page estimate differ. -/
def stC8x : AppState :=
  idleState { name := "doc.pdf", size := 3 }
    { format := OutputFormat.jpeg, level := CompressionLevel.medium }

/-- State fixture for the C8 amended-claim witness (png format, 7 bytes
over 2 pages: the estimate rounds 3.5 up to 4). -/
def stW8 : AppState :=
  idleState { name := "wsz.pdf", size := 7 }
    { format := OutputFormat.png, level := CompressionLevel.low }

/-- State fixture for the C3 counterexample: a summary run on the file
named x.pdfy.pdf. -/
def stC3x : AppState :=
  idleState { name := "x.pdfy.pdf", size := 500 }
    { format := OutputFormat.pdf, level := CompressionLevel.medium }

/-- Environment fixture for the C3 counterexample: summarization and
preview succeed, the generated PDF blob has 42 bytes. -/
def envC3x : CompressEnv :=
  { read := ReadOutcome.loaded,
    decode := some docOnePage,
    renderOk := fun _ => true,
    ctx := fun _ => true,
    encode := fun _ _ _ => "data:image/jpeg;base64,AAAA",
    summarize := fun _ => Except.ok "short text",
    outputBlobSize := fun _ => 42,
    objectUrl := "blob:summary",
    preview := Except.ok "data:image/png;base64,AAAA" }

/-- State fixture for the C3 amended-claim witness. -/
def stW3 : AppState :=
  idleState { name := "wsum.pdf", size := 77 }
    { format := OutputFormat.pdf, level := CompressionLevel.medium }

/-- Environment fixture for the C3 amended-claim witness: the generated
PDF blob has 9 bytes. -/
def envW3 : CompressEnv :=
  { read := ReadOutcome.loaded,
    decode := some docTwoPages,
    renderOk := fun _ => true,
    ctx := fun _ => true,
    encode := fun _ _ _ => "data:image/jpeg;base64,AAAA",
    summarize := fun _ => Except.ok "sum",
    outputBlobSize := fun _ => 9,
    objectUrl := "blob:w",
    preview := Except.ok "pv" }

/-- An image artifact fixture, as the pipeline would produce it. -/
def wOrig : ProcessedFile :=
  { name := "doc_page_1.jpeg",
    dataUrl := "data:image/jpeg;base64,AAAA",
    previewUrl := "data:image/jpeg;base64,AAAA",
    originalSize := 10,
    compressedSize := 3 }

/-- A second image artifact fixture, for frame checks. -/
def wOrig2 : ProcessedFile :=
  { name := "doc_page_2.jpeg",
    dataUrl := "data:image/jpeg;base64,CCCC",
    previewUrl := "data:image/jpeg;base64,CCCC",
    originalSize := 10,
    compressedSize := 3 }

/-- Post-run state fixture with one artifact and an open edit session
whose instruction text is empty (C4 witness, local-validation path). -/
def stW4a : AppState :=
  { file := some { name := "doc.pdf", size := 100 },
    options := { format := OutputFormat.jpeg, level := CompressionLevel.medium },
    status := AppStatus.success, statusMessage := "",
    results := [wOrig], error := none,
    editingState := some { index := 0, prompt := "", isLoading := false } }

/-- Post-run state fixture with one artifact and an open edit session
with a non-empty instruction (C4 witness, remote-failure path). -/
def stW4b : AppState :=
  { file := some { name := "doc.pdf", size := 100 },
    options := { format := OutputFormat.jpeg, level := CompressionLevel.medium },
    status := AppStatus.success, statusMessage := "",
    results := [wOrig], error := none,
    editingState := some { index := 0, prompt := "grayscale", isLoading := false } }

/-- Post-run state fixture with two artifacts and an open edit session
on the first (C5 witness). -/
def stW5 : AppState :=
  { file := some { name := "doc.pdf", size := 100 },
    options := { format := OutputFormat.jpeg, level := CompressionLevel.medium },
    status := AppStatus.success, statusMessage := "",
    results := [wOrig, wOrig2], error := none,
    editingState := some { index := 0, prompt := "grayscale", isLoading := false } }

/-- A remote image-edit collaborator that always fails with the message
boom. -/
def eIfail : String → String → String → Except String String :=
  fun _ _ _ => Except.error "boom"

/-- A remote image-edit collaborator that always fails with a different
message (used to observe that the validation path makes no call). -/
def eIother : String → String → String → Except String String :=
  fun _ _ _ => Except.error "other"

/-- A remote image-edit collaborator that always returns the payload
BBBBBB (which decodes to four bytes). -/
def eIok : String → String → String → Except String String :=
  fun _ _ _ => Except.ok "BBBBBB"

/-! Helper lemmas. -/

/-- Folding string concatenation starting from acc prepends acc to the
fold started from the empty string. -/
theorem foldl_append_acc (l : List String) :
    ∀ acc : String,
      l.foldl (fun r s => r ++ s) acc = acc ++ l.foldl (fun r s => r ++ s) "" := by
  induction l with
  | nil => intro acc; exact (String.append_empty acc).symm
  | cons x l ih =>
    intro acc
    show l.foldl _ (acc ++ x) = acc ++ l.foldl _ ("" ++ x)
    rw [ih (acc ++ x), ih ("" ++ x), String.empty_append, String.append_assoc]

/-- String.join distributes over cons. -/
theorem join_cons (x : String) (l : List String) :
    String.join (x :: l) = x ++ String.join l := by
  show l.foldl _ ("" ++ x) = x ++ l.foldl _ ""
  rw [String.empty_append, foldl_append_acc l x]

/-- The fullText accumulation equals the join of the per-page texts each
followed by the blank-line separator. -/
theorem foldl_pages_join (ps : List PdfPage) :
    ∀ acc : String,
      ps.foldl (fun a p => a ++ pageText p ++ "\n\n") acc
        = acc ++ String.join (ps.map (fun p => pageText p ++ "\n\n")) := by
  induction ps with
  | nil => intro acc; exact (String.append_empty acc).symm
  | cons p ps ih =>
    intro acc
    show ps.foldl _ (acc ++ pageText p ++ "\n\n") = _
    rw [ih, List.map_cons, join_cons]
    rw [String.append_assoc acc (pageText p), String.append_assoc, String.append_assoc]

/-- takeWhile passes over a leading block whose elements all satisfy the
predicate. -/
theorem takeWhile_append_of_all {α : Type} (p : α → Bool) (l r : List α)
    (h : ∀ c ∈ l, p c = true) :
    List.takeWhile p (l ++ r) = l ++ List.takeWhile p r := by
  induction l with
  | nil => rfl
  | cons c l ih =>
    rw [List.cons_append, List.takeWhile_cons, h c (List.mem_cons_self c l),
      if_pos rfl, List.cons_append,
      ih (fun x hx => h x (List.mem_cons_of_mem c hx))]

/-- The edited-name regex on a name of the shape stem.ext, with a
nonempty extension of word-class characters, inserts _edited before the
final dot. -/
theorem jsEditedName_insert (stem e : List Char)
    (hne : e ≠ []) (hword : e.all isWordChar = true) :
    jsEditedName (String.mk (stem ++ '.' :: e))
      = String.mk (stem ++ "_edited".data ++ '.' :: e) := by
  have hrev : (stem ++ '.' :: e).reverse = e.reverse ++ '.' :: stem.reverse := by
    rw [List.reverse_append, List.reverse_cons, List.append_assoc,
      List.singleton_append]
  have hall : ∀ c ∈ e.reverse, isWordChar c = true := fun c hc =>
    List.all_eq_true.mp hword c (List.mem_reverse.mp hc)
  have hdot : isWordChar '.' = false := by decide
  have htw : (e.reverse ++ '.' :: stem.reverse).takeWhile isWordChar = e.reverse := by
    rw [takeWhile_append_of_all _ _ _ hall, List.takeWhile_cons, hdot]
    simp
  have hdrop : (e.reverse ++ '.' :: stem.reverse).drop e.reverse.length
      = '.' :: stem.reverse := List.drop_left _ _
  have hne2 : e.reverse ≠ [] := fun hc => hne (List.reverse_eq_nil_iff.mp hc)
  show jsEditedName (String.mk (stem ++ '.' :: e)) = _
  unfold jsEditedName
  simp only [hrev, htw, hdrop]
  rw [if_pos ⟨hne2, rfl⟩]
  simp [List.reverse_reverse]

/-- getD on the unit array stays inside the array for indices below
four. -/
theorem sizesList_getD_mem : ∀ i, i < 4 → sizesList.getD i "undefined" ∈ sizesList := by
  decide

/-- When every page has a context, every render resolves and every
encoded data URL decodes, the conversion loop succeeds and produces one
artifact per visited page, in order, with the template-literal name and
the shared per-page size estimate. -/
theorem convertLoop_ok (base ext mime : String) (q : ℚ) (perPage numPages : Nat)
    (renderOk ctx : Nat → Bool) (encode : Nat → String → ℚ → String)
    (hctx : ∀ i, ctx i = true) (hrender : ∀ i, renderOk i = true)
    (henc : ∀ i, ∃ b, dataURLToBlob (encode i mime q) = Except.ok b) :
    ∀ (n s : Nat) (msg : String), ∃ msg2 arts,
      convertLoop base ext mime q perPage numPages renderOk ctx encode
          (natRange s n) msg = (msg2, some arts) ∧
      arts.map (fun a => a.name)
        = (natRange s n).map (fun i => base ++ "_page_" ++ toString i ++ "." ++ ext) ∧
      arts.map (fun a => a.originalSize) = (natRange s n).map (fun _ => perPage) := by
  intro n
  induction n with
  | zero => intro s msg; exact ⟨msg, [], rfl, rfl, rfl⟩
  | succ n ih =>
    intro s msg
    obtain ⟨b, hb⟩ := henc s
    obtain ⟨msg2, arts, hloop, hnames, hsizes⟩ :=
      ih (s + 1) ("Converting page " ++ toString s ++ " of " ++ toString numPages ++ "...")
    refine ⟨msg2,
      { name := base ++ "_page_" ++ toString s ++ "." ++ ext,
        dataUrl := encode s mime q,
        previewUrl := encode s mime q,
        originalSize := perPage,
        compressedSize := b.size } :: arts, ?_, ?_, ?_⟩
    · show convertLoop base ext mime q perPage numPages renderOk ctx encode
          (s :: natRange (s + 1) n) msg = _
      simp only [convertLoop, hctx s, hrender s, if_true, hb, hloop]
    · simp only [natRange, List.map_cons, hnames]
    · simp only [natRange, List.map_cons, hsizes]

/-- The benign image environment encodes every page to the same small
well-formed data URL, which decodes to a three-byte jpeg blob. -/
theorem envImgOk_encode_ok (doc : PdfDoc) (i : Nat) (mime : String) (q : ℚ) :
    dataURLToBlob ((envImgOk doc).encode i mime q)
      = Except.ok { type := "image/jpeg", size := 3 } := by
  show dataURLToBlob "data:image/jpeg;base64,AAAA" = _
  rfl

/-! Claim theorems. -/

/-- C2 evaluation at the failing input: the source file reads fine but
its bytes are a malformed PDF, so pdfjs getDocument rejects.  That
rejection happens inside the async onload callback, after the try/catch
of handleCompress has already finished, so nothing catches it: the
status remains processing (never error), no user-visible error message
is published, and the results stay empty.  The claim (and the spec)
require the run to terminate in the error status with a message here. -/
theorem handleCompress_malformed_pdf_freezes :
    (handleCompress stMal envMal).status = AppStatus.processing ∧
    (handleCompress stMal envMal).error = none ∧
    (handleCompress stMal envMal).results = [] :=
  ⟨rfl, rfl, rfl⟩

/-- C6: for every compression options value, the quality used for image
encoding is determined solely by the level and not by the chosen image
format; level low maps to quality 0.5, medium to 0.75 and high to 0.92.
(handleCompress passes getQuality st.options to the canvas encoder for
every page, so getQuality is the single source of the quality.) -/
theorem getQuality_level_only :
    (∀ (fmt fmt' : OutputFormat) (lvl : CompressionLevel),
      getQuality { format := fmt, level := lvl }
        = getQuality { format := fmt', level := lvl }) ∧
    (∀ fmt, getQuality { format := fmt, level := CompressionLevel.low } = 1/2) ∧
    (∀ fmt, getQuality { format := fmt, level := CompressionLevel.medium } = 3/4) ∧
    (∀ fmt, getQuality { format := fmt, level := CompressionLevel.high } = 92/100) := by
  refine ⟨?_, fun fmt => rfl, fun fmt => rfl, fun fmt => rfl⟩
  intro fmt fmt' lvl
  cases lvl <;> rfl

/-- C7 counterexample: on a one-page document with page text a, the full
text handed to the summarization collaborator is a followed by the
blank-line separator — not the separator-free intercalation the claim
describes (a separator occurs after the last page too). -/
theorem extractFullText_counterexample :
    extractFullText docOnePage = "hi\n\n" ∧
    extractFullText docOnePage
      ≠ String.intercalate "\n\n" (docOnePage.pages.map pageText) := by
  decide

/-- C7 amended: the full-document text is the concatenation of the page
texts in page order, each page followed by a blank-line separator — the
separator also follows the last page. -/
theorem extractFullText_trailing_separator (doc : PdfDoc) :
    extractFullText doc
      = String.join (doc.pages.map (fun p => pageText p ++ "\n\n")) := by
  show doc.pages.foldl _ "" = _
  rw [foldl_pages_join, String.empty_append]

/-- C9: the size formatter renders zero bytes as the literal string
0 Bytes, and the unit index (which selects the displayed unit from the
Bytes/KB/MB/GB ladder) never decreases when the byte count is multiplied
by 1024. -/
theorem formatFileSize_zero_and_monotone :
    (∀ numStr, formatFileSize numStr 0 = "0 Bytes") ∧
    (∀ b : Nat, unitIndex b ≤ unitIndex (1024 * b)) := by
  constructor
  · intro numStr; rfl
  · intro b
    exact Nat.log_mono_right (Nat.le_mul_of_pos_left b (by norm_num))

/-- C10: the unit lookup of the size formatter is in bounds exactly for
byte counts below 1024^4: below that bound the computed index selects
one of the four defined unit names, while at or above it the index
reaches past the four-element unit array, the lookup is undefined, and
the rendered string ends in the text undefined instead of a unit name. -/
theorem formatFileSize_unit_bounds :
    ∀ b : Nat,
      (b < 1024 ^ 4 →
        unitIndex b < 4 ∧ sizesList.getD (unitIndex b) "undefined" ∈ sizesList) ∧
      (1024 ^ 4 ≤ b →
        4 ≤ unitIndex b ∧
        sizesList.getD (unitIndex b) "undefined" = "undefined" ∧
        ∀ numStr, formatFileSize numStr b
          = numStr b (unitIndex b) ++ " " ++ "undefined") := by
  intro b
  constructor
  · intro hb
    have hlt : unitIndex b < 4 := by
      rcases Nat.eq_zero_or_pos b with h0 | hpos
      · rw [h0]
        show Nat.log 1024 0 < 4
        rw [Nat.log_zero_right]
        omega
      · exact Nat.log_lt_of_lt_pow (Nat.pos_iff_ne_zero.mp hpos) hb
    exact ⟨hlt, sizesList_getD_mem _ hlt⟩
  · intro hb
    have hb0 : b ≠ 0 := by
      intro h0
      rw [h0] at hb
      norm_num at hb
    have h4 : 4 ≤ unitIndex b := (Nat.pow_le_iff_le_log (by norm_num) hb0).mp hb
    have hlen : sizesList.length ≤ unitIndex b := h4
    refine ⟨h4, List.getD_eq_default _ _ hlen, ?_⟩
    intro numStr
    rw [formatFileSize, if_neg hb0, List.getD_eq_default _ _ hlen]

/-- Witness for C10: the bound claims hold at the concrete byte counts
5000 (in bounds, a KB-range value) and 1024^4 (the first out-of-bounds
value). -/
theorem formatFileSize_unit_bounds_witness :
    (unitIndex 5000 < 4 ∧ sizesList.getD (unitIndex 5000) "undefined" ∈ sizesList) ∧
    (4 ≤ unitIndex (1024 ^ 4) ∧
      sizesList.getD (unitIndex (1024 ^ 4)) "undefined" = "undefined") :=
  ⟨(formatFileSize_unit_bounds 5000).1 (by norm_num),
   ⟨((formatFileSize_unit_bounds (1024 ^ 4)).2 (le_refl _)).1,
    ((formatFileSize_unit_bounds (1024 ^ 4)).2 (le_refl _)).2.1⟩⟩

/-- C1 counterexample: on the source file named x.pdfy.pdf the artifact
is named xy.pdf_page_1.jpeg, because the code removes the FIRST
occurrence of the substring .pdf from the file name — not the trailing
.pdf extension, which would give the base x.pdfy and the artifact name
x.pdfy_page_1.jpeg required by the claim. -/
theorem handleCompress_image_name_counterexample :
    (handleCompress stC1x (envImgOk docOnePage)).results.map (fun a => a.name)
      = ["xy.pdf_page_1.jpeg"] ∧
    (handleCompress stC1x (envImgOk docOnePage)).results.map (fun a => a.name)
      ≠ ["x.pdfy" ++ "_page_1." ++ "jpeg"] := by
  decide

/-- C1 amended: for every image-mode run in which every page yields a
canvas context, every render resolves and every encoded data URL
decodes, the pipeline produces exactly one artifact per page, in page
order 1..N, named base_page_i.ext — where base is the source file name
with the FIRST occurrence of the substring .pdf removed (this equals the
name minus its extension for the usual names containing .pdf only at
the end) — and the run ends in the success status. -/
theorem handleCompress_image_names (st : AppState) (env : CompressEnv)
    (f : SourceFile) (doc : PdfDoc)
    (hfile : st.file = some f)
    (hfmt : st.options.format = OutputFormat.jpeg ∨ st.options.format = OutputFormat.png)
    (hread : env.read = ReadOutcome.loaded)
    (hdecode : env.decode = some doc)
    (hctx : ∀ i, env.ctx i = true)
    (hrender : ∀ i, env.renderOk i = true)
    (henc : ∀ i, ∃ b, dataURLToBlob (env.encode i ("image/" ++ fmtExt st.options.format)
        (getQuality st.options)) = Except.ok b) :
    (handleCompress st env).results.map (fun a => a.name)
      = (natRange 1 doc.pages.length).map
          (fun i => replaceFirst f.name ".pdf" "" ++ "_page_" ++ toString i ++ "."
            ++ fmtExt st.options.format) ∧
    (handleCompress st env).status = AppStatus.success := by
  have hne : st.options.format ≠ OutputFormat.pdf := by
    rcases hfmt with h | h <;> rw [h] <;> intro hc <;> cases hc
  obtain ⟨msg2, arts, hloop, hnames, hsizes⟩ :=
    convertLoop_ok (replaceFirst f.name ".pdf" "") (fmtExt st.options.format)
      ("image/" ++ fmtExt st.options.format) (getQuality st.options)
      (jsRound f.size doc.pages.length) doc.pages.length
      env.renderOk env.ctx env.encode hctx hrender henc
      doc.pages.length 1 st.statusMessage
  simp only [handleCompress, hfile, hread, hdecode, if_neg hne]
  rw [hloop]
  exact ⟨hnames, rfl⟩

/-- Witness for the amended C1: a concrete two-page jpeg run yields the
two artifacts wdoc_page_1.jpeg and wdoc_page_2.jpeg, in order, and the
success status. -/
theorem handleCompress_image_names_witness :
    (handleCompress stW1 (envImgOk docTwoPages)).results.map (fun a => a.name)
      = ["wdoc_page_1.jpeg", "wdoc_page_2.jpeg"] ∧
    (handleCompress stW1 (envImgOk docTwoPages)).status = AppStatus.success :=
  handleCompress_image_names stW1 (envImgOk docTwoPages)
    { name := "wdoc.pdf", size := 50 } docTwoPages rfl (Or.inl rfl) rfl rfl
    (fun _ => rfl) (fun _ => rfl)
    (fun i => ⟨{ type := "image/jpeg", size := 3 }, envImgOk_encode_ok docTwoPages i _ _⟩)

/-- C8 counterexample: 3 source bytes spread over 2 pages give each
artifact the originalSize 2 = Math.round(3/2), while the claim requires
floor(3/2) = 1 for every artifact. -/
theorem handleCompress_originalSize_counterexample :
    (handleCompress stC8x (envImgOk docTwoPages)).results.map (fun a => a.originalSize)
      = [2, 2] ∧
    (handleCompress stC8x (envImgOk docTwoPages)).results.map (fun a => a.originalSize)
      ≠ List.replicate 2 (3 / 2) := by
  decide

/-- C8 amended: in every image-mode run (under the same collaborator
hypotheses as the naming theorem) every artifact has originalSize equal to
the per-page estimate Math.round(S/N) — the byte size divided by the
page count rounded to the NEAREST integer with halves rounding up,
(2*S + N) / (2*N) in integer arithmetic — not floor(S/N). -/
theorem handleCompress_image_originalSizes (st : AppState) (env : CompressEnv)
    (f : SourceFile) (doc : PdfDoc)
    (hfile : st.file = some f)
    (hfmt : st.options.format = OutputFormat.jpeg ∨ st.options.format = OutputFormat.png)
    (hread : env.read = ReadOutcome.loaded)
    (hdecode : env.decode = some doc)
    (hctx : ∀ i, env.ctx i = true)
    (hrender : ∀ i, env.renderOk i = true)
    (henc : ∀ i, ∃ b, dataURLToBlob (env.encode i ("image/" ++ fmtExt st.options.format)
        (getQuality st.options)) = Except.ok b) :
    (handleCompress st env).results.map (fun a => a.originalSize)
      = (natRange 1 doc.pages.length).map
          (fun _ => (2 * f.size + doc.pages.length) / (2 * doc.pages.length)) := by
  have hne : st.options.format ≠ OutputFormat.pdf := by
    rcases hfmt with h | h <;> rw [h] <;> intro hc <;> cases hc
  obtain ⟨msg2, arts, hloop, hnames, hsizes⟩ :=
    convertLoop_ok (replaceFirst f.name ".pdf" "") (fmtExt st.options.format)
      ("image/" ++ fmtExt st.options.format) (getQuality st.options)
      (jsRound f.size doc.pages.length) doc.pages.length
      env.renderOk env.ctx env.encode hctx hrender henc
      doc.pages.length 1 st.statusMessage
  simp only [handleCompress, hfile, hread, hdecode, if_neg hne]
  rw [hloop]
  exact hsizes

/-- Witness for the amended C8: a concrete run of 7 source bytes over
two png pages gives both artifacts the originalSize 4 (3.5 rounded up by
Math.round, where floor would give 3). -/
theorem handleCompress_image_originalSizes_witness :
    (handleCompress stW8 (envImgOk docTwoPages)).results.map (fun a => a.originalSize)
      = [4, 4] :=
  handleCompress_image_originalSizes stW8 (envImgOk docTwoPages)
    { name := "wsz.pdf", size := 7 } docTwoPages rfl (Or.inr rfl) rfl rfl
    (fun _ => rfl) (fun _ => rfl)
    (fun i => ⟨{ type := "image/jpeg", size := 3 }, envImgOk_encode_ok docTwoPages i _ _⟩)

/-- C3 counterexample: a summary run on the source file named
x.pdfy.pdf produces the artifact xy.pdf_summary.pdf — the code removes
the FIRST occurrence of the substring .pdf, not the trailing extension,
which would give x.pdfy_summary.pdf as the claim requires. -/
theorem handleCompress_summary_name_counterexample :
    (handleCompress stC3x envC3x).results.map (fun a => a.name)
      = ["xy.pdf_summary.pdf"] ∧
    (handleCompress stC3x envC3x).results.map (fun a => a.name)
      ≠ ["x.pdfy" ++ "_summary.pdf"] := by
  decide

/-- C3 amended: every summary-mode run whose summarization and preview
steps succeed produces exactly one artifact, named base_summary.pdf
where base is the source file name with the FIRST occurrence of the
substring .pdf removed (equals the name minus its extension for the
usual names), whose compressedSize is exactly the byte length of the
newly generated PDF blob and whose originalSize is the full byte size of
the source file. -/
theorem handleCompress_summary_artifact (st : AppState) (env : CompressEnv)
    (f : SourceFile) (doc : PdfDoc) (s p : String)
    (hfile : st.file = some f)
    (hfmt : st.options.format = OutputFormat.pdf)
    (hread : env.read = ReadOutcome.loaded)
    (hdecode : env.decode = some doc)
    (hsum : env.summarize (extractFullText doc) = Except.ok s)
    (hprev : env.preview = Except.ok p) :
    (handleCompress st env).results
      = [{ name := replaceFirst f.name ".pdf" "" ++ "_summary.pdf",
           dataUrl := env.objectUrl,
           previewUrl := p,
           originalSize := f.size,
           compressedSize := env.outputBlobSize s }] ∧
    (handleCompress st env).status = AppStatus.success := by
  simp only [handleCompress, hfile, hread, hdecode, hfmt, if_true]
  rw [hsum, hprev]
  exact ⟨rfl, rfl⟩

/-- Witness for the amended C3: a concrete two-page summary run yields
the single artifact wsum_summary.pdf carrying the generated blob size
9 and the source size 77. -/
theorem handleCompress_summary_artifact_witness :
    (handleCompress stW3 envW3).results
      = [{ name := "wsum_summary.pdf",
           dataUrl := "blob:w",
           previewUrl := "pv",
           originalSize := 77,
           compressedSize := 9 }] ∧
    (handleCompress stW3 envW3).status = AppStatus.success :=
  handleCompress_summary_artifact stW3 envW3
    { name := "wsum.pdf", size := 77 } docTwoPages "sum" "pv"
    rfl rfl rfl rfl rfl rfl

/-- Path equation: with an open session whose instruction is empty, the
apply-edit handler lands in the catch block with the local validation
message, before any remote call. -/
theorem handleApplyEdit_empty_prompt_eq (st : AppState) (es : EditingState)
    (eI : String → String → String → Except String String)
    (hes : st.editingState = some es) (hp : es.prompt = "") :
    handleApplyEdit st eI
      = applyEditFail
          { st with editingState := some { es with isLoading := true }, error := none }
          es "Please enter an edit description." := by
  unfold handleApplyEdit
  rw [hes]
  simp only []
  rw [if_pos hp]

/-- Path equation: when the instruction is non-empty, the artifact
exists, its data URL parses, and the remote collaborator fails, the
handler lands in the catch block with the remote message. -/
theorem handleApplyEdit_remote_error_eq (st : AppState) (es : EditingState)
    (eI : String → String → String → Except String String)
    (orig : ProcessedFile) (hd tl mc : List Char) (m : String)
    (hes : st.editingState = some es)
    (hp : es.prompt ≠ "")
    (hget : st.results.get? es.index = some orig)
    (hsplit : splitOnChar ',' orig.dataUrl.data = [hd, tl])
    (hcolon : firstColonGroup hd = some mc)
    (heI : eI (String.mk tl) (String.mk mc) es.prompt = Except.error m) :
    handleApplyEdit st eI
      = applyEditFail
          { st with editingState := some { es with isLoading := true }, error := none }
          es m := by
  unfold handleApplyEdit
  rw [hes]
  simp only []
  rw [if_neg hp, hget]
  simp only []
  rw [hsplit]
  simp only [List.length_cons, List.length_nil]
  rw [if_neg (by decide : ¬ ((2 : Nat) ≠ 2))]
  simp only [List.getD, List.get?_cons_zero, List.get?_cons_succ, Option.getD_some]
  rw [hcolon]
  simp only []
  rw [heI]

/-- Path equation: when the instruction is non-empty, the artifact
exists, its data URL parses, the remote collaborator succeeds and the
new data URL decodes, the handler replaces the artifact at the session
index, clears the error and closes the session. -/
theorem handleApplyEdit_remote_ok_eq (st : AppState) (es : EditingState)
    (eI : String → String → String → Except String String)
    (orig : ProcessedFile) (hd tl mc : List Char) (newB64 : String) (nb : Blob)
    (hes : st.editingState = some es)
    (hp : es.prompt ≠ "")
    (hget : st.results.get? es.index = some orig)
    (hsplit : splitOnChar ',' orig.dataUrl.data = [hd, tl])
    (hcolon : firstColonGroup hd = some mc)
    (heI : eI (String.mk tl) (String.mk mc) es.prompt = Except.ok newB64)
    (hblob : dataURLToBlob ("data:" ++ String.mk mc ++ ";base64," ++ newB64)
      = Except.ok nb) :
    handleApplyEdit st eI
      = { st with
          results := st.results.set es.index
            { orig with
              name := jsEditedName orig.name,
              dataUrl := "data:" ++ String.mk mc ++ ";base64," ++ newB64,
              previewUrl := "data:" ++ String.mk mc ++ ";base64," ++ newB64,
              compressedSize := nb.size },
          error := none,
          editingState := none } := by
  unfold handleApplyEdit
  rw [hes]
  simp only []
  rw [if_neg hp, hget]
  simp only []
  rw [hsplit]
  simp only [List.length_cons, List.length_nil]
  rw [if_neg (by decide : ¬ ((2 : Nat) ≠ 2))]
  simp only [List.getD, List.get?_cons_zero, List.get?_cons_succ, Option.getD_some]
  rw [hcolon]
  simp only []
  rw [heI]
  simp only []
  rw [hblob]

/-- C4: failure paths of the apply-edit handler.  With an empty
instruction the handler raises the local validation error without
consulting the remote collaborator at all (the outcome is identical for
any two collaborators), the results are untouched and the session stays
open with the in-flight flag cleared.  When the data URL parses and the
remote collaborator fails with a non-empty message, that message is
surfaced, the results (hence the artifact at the edited index) are
untouched, and the session stays open with the in-flight flag
cleared. -/
theorem handleApplyEdit_failure_paths (st : AppState) (es : EditingState)
    (eI eI2 : String → String → String → Except String String)
    (orig : ProcessedFile) (hd tl mc : List Char) (m : String)
    (hes : st.editingState = some es) :
    (es.prompt = "" →
      handleApplyEdit st eI = handleApplyEdit st eI2 ∧
      (handleApplyEdit st eI).error = some "Please enter an edit description." ∧
      (handleApplyEdit st eI).results = st.results ∧
      (handleApplyEdit st eI).editingState = some { es with isLoading := false }) ∧
    (es.prompt ≠ "" →
      st.results.get? es.index = some orig →
      splitOnChar ',' orig.dataUrl.data = [hd, tl] →
      firstColonGroup hd = some mc →
      eI (String.mk tl) (String.mk mc) es.prompt = Except.error m →
      m ≠ "" →
      (handleApplyEdit st eI).error = some m ∧
      (handleApplyEdit st eI).results = st.results ∧
      (handleApplyEdit st eI).editingState = some { es with isLoading := false }) := by
  constructor
  · intro hp
    rw [handleApplyEdit_empty_prompt_eq st es eI hes hp,
      handleApplyEdit_empty_prompt_eq st es eI2 hes hp]
    exact ⟨rfl, rfl, rfl, rfl⟩
  · intro hp hget hsplit hcolon heI hm
    rw [handleApplyEdit_remote_error_eq st es eI orig hd tl mc m
      hes hp hget hsplit hcolon heI]
    refine ⟨?_, rfl, rfl⟩
    show some (jsErrMessage m "An error occurred during AI editing.") = some m
    rw [jsErrMessage, if_neg hm]

/-- Witness for C4: with the empty instruction the outcome is the same
for two different collaborators, the validation message is surfaced and
the session stays open; with the failing collaborator the message boom
is surfaced, the single artifact stays in place and the session stays
open. -/
theorem handleApplyEdit_failure_paths_witness :
    (handleApplyEdit stW4a eIfail = handleApplyEdit stW4a eIother ∧
     (handleApplyEdit stW4a eIfail).error = some "Please enter an edit description." ∧
     (handleApplyEdit stW4a eIfail).results = stW4a.results ∧
     (handleApplyEdit stW4a eIfail).editingState
       = some { index := 0, prompt := "", isLoading := false }) ∧
    ((handleApplyEdit stW4b eIfail).error = some "boom" ∧
     (handleApplyEdit stW4b eIfail).results = stW4b.results ∧
     (handleApplyEdit stW4b eIfail).editingState
       = some { index := 0, prompt := "grayscale", isLoading := false }) := by
  constructor
  · exact (handleApplyEdit_failure_paths stW4a
      { index := 0, prompt := "", isLoading := false } eIfail eIother
      wOrig [] [] [] "m" rfl).1 rfl
  · exact (handleApplyEdit_failure_paths stW4b
      { index := 0, prompt := "grayscale", isLoading := false } eIfail eIother
      wOrig ("data:image/jpeg;base64".data) ("AAAA".data) ("image/jpeg".data)
      "boom" rfl).2 (by decide) rfl (by rfl) (by rfl) (by rfl) (by decide)

/-- C5: a successful apply-edit on the artifact at index k replaces only
that artifact — every other index is unchanged and the length is
preserved — the new artifact name is the old name with _edited inserted
immediately before the extension, its data URL and preview carry the new
payload, its compressedSize is the byte size decoded from the new
payload, the edit session closes and the status is untouched. -/
theorem handleApplyEdit_success_frame (st : AppState) (es : EditingState)
    (eI : String → String → String → Except String String)
    (orig : ProcessedFile) (hd tl mc : List Char) (newB64 : String) (nb : Blob)
    (stem e : List Char)
    (hes : st.editingState = some es)
    (hp : es.prompt ≠ "")
    (hget : st.results.get? es.index = some orig)
    (hsplit : splitOnChar ',' orig.dataUrl.data = [hd, tl])
    (hcolon : firstColonGroup hd = some mc)
    (heI : eI (String.mk tl) (String.mk mc) es.prompt = Except.ok newB64)
    (hblob : dataURLToBlob ("data:" ++ String.mk mc ++ ";base64," ++ newB64)
      = Except.ok nb)
    (hname : orig.name = String.mk (stem ++ '.' :: e))
    (hne : e ≠ []) (hword : e.all isWordChar = true) :
    (handleApplyEdit st eI).results.length = st.results.length ∧
    (∀ j, j ≠ es.index →
      (handleApplyEdit st eI).results.get? j = st.results.get? j) ∧
    (handleApplyEdit st eI).results.get? es.index
      = some { orig with
          name := String.mk (stem ++ "_edited".data ++ '.' :: e),
          dataUrl := "data:" ++ String.mk mc ++ ";base64," ++ newB64,
          previewUrl := "data:" ++ String.mk mc ++ ";base64," ++ newB64,
          compressedSize := nb.size } ∧
    (handleApplyEdit st eI).editingState = none ∧
    (handleApplyEdit st eI).status = st.status := by
  have hlt : es.index < st.results.length := by
    rcases List.get?_eq_some.mp hget with ⟨h, _⟩
    exact h
  rw [handleApplyEdit_remote_ok_eq st es eI orig hd tl mc newB64 nb
    hes hp hget hsplit hcolon heI hblob]
  refine ⟨List.length_set _ _ _,
    fun j hj => List.get?_set_ne _ _ (Ne.symm hj), ?_, rfl, rfl⟩
  rw [List.get?_set_eq_of_lt _ hlt, hname, jsEditedName_insert stem e hne hword]

/-- Witness for C5: on a two-artifact result list, editing index 0 with
a collaborator that returns the payload BBBBBB leaves index 1 untouched,
replaces index 0 by the artifact doc_page_1_edited.jpeg carrying the new
payload and its decoded size 4, and closes the session. -/
theorem handleApplyEdit_success_frame_witness :
    (handleApplyEdit stW5 eIok).results.length = 2 ∧
    (handleApplyEdit stW5 eIok).results.get? 1 = stW5.results.get? 1 ∧
    (handleApplyEdit stW5 eIok).results.get? 0
      = some { name := "doc_page_1_edited.jpeg",
               dataUrl := "data:image/jpeg;base64,BBBBBB",
               previewUrl := "data:image/jpeg;base64,BBBBBB",
               originalSize := 10,
               compressedSize := 4 } ∧
    (handleApplyEdit stW5 eIok).editingState = none := by
  have h := handleApplyEdit_success_frame stW5
    { index := 0, prompt := "grayscale", isLoading := false } eIok
    wOrig ("data:image/jpeg;base64".data) ("AAAA".data) ("image/jpeg".data)
    "BBBBBB" { type := "image/jpeg", size := 4 }
    ("doc_page_1".data) ("jpeg".data)
    rfl (by decide) rfl (by rfl) (by rfl) (by rfl) (by rfl) (by rfl)
    (by decide) (by decide)
  exact ⟨h.1, h.2.1 1 (by decide), h.2.2.1, h.2.2.2.1⟩

end PdfApp
